import Mathlib

/-!
Shallow embedding of the keymashed eBPF packet-drop filters.

The repository contains four traffic-control hook entry points in C:

* `scream_bpf` in src/bpf/bpf.c — looks up the single-slot pinned array map
  `map_keymash` at key 0 and drops the packet when a fresh `get_prandom_u32`
  draw is strictly below the stored 32-bit value; on a lookup miss the `&&`
  short-circuits and the packet passes without a draw.
* `scream_bpf` in src/bpf/bpf2.c — same map read, but the stored value is
  first copied into a signed `int prob_frac` (default 0 on a miss) before the
  unsigned comparison with the draw.
* `scream_bpf` in src/screamd/bpf/bpf.c — as bpf2.c but with default
  `UINT32_MAX / 10` on a miss, and `val` declared `int *`.
* `emain` / `imain` in src/screamd/bpf.c — egress/ingress hooks that compare
  the draw against the hard constant `UINT32_MAX / 10` and never touch the map.

Machine integers are embedded as `Nat` (unsigned 32-bit values are below
2 ^ 32) and C `int` as `Int`, with the implementation-defined
unsigned-to-signed conversion and the usual-arithmetic-conversions
signed-to-unsigned wrap made explicit (`toInt32`, `toUInt32`).

The kernel map helper is environmental: per the spec's store contract
(`read(handle) -> Option<u32>`, §4.1), the single-slot map state is an
`Option Nat` (unset or the stored word) and `map_lookup_elem` returns it for
key 0. The random source is likewise environmental; each entry point takes
the draw it would return as a parameter and reports in `draws` how many times
`get_prandom_u32` was actually called.
-/

namespace Keymashed

/-- Verdict values returned by the hooks: `TC_ACT_OK` (pass) and
`TC_ACT_SHOT` (drop), from linux/pkt_cls.h. -/
inductive Verdict where
  | TC_ACT_OK : Verdict
  | TC_ACT_SHOT : Verdict
deriving DecidableEq, Repr

/-- Opaque packet handle (`struct __sk_buff *skb`). The hooks receive it but
never read it; its payload is arbitrary. -/
structure SkBuff where
  contents : List Nat
deriving DecidableEq, Repr

/-- State of the single-slot pinned array map (key 0): `none` when unset,
`some v` when the control plane has written the 32-bit word `v`. -/
abbrev MapState := Option Nat

/-- Kernel helper `map_lookup_elem` on the one-entry map, following the
spec's store read contract (§4.1, `read(handle) -> Option<u32>`): the lookup
at key 0 yields the current slot, any other key misses. -/
def map_lookup_elem (st : MapState) (key : Nat) : Option Nat :=
  if key = 0 then st else none

/-- Constant `UINT32_MAX` from stdint.h. -/
def UINT32_MAX : Nat := 4294967295

/-- C conversion of a 32-bit unsigned value to 32-bit signed `int`
(two's-complement wrap, as clang implements it). -/
def toInt32 (n : Nat) : Int :=
  if n % 2 ^ 32 < 2 ^ 31 then ((n % 2 ^ 32 : Nat) : Int)
  else ((n % 2 ^ 32 : Nat) : Int) - 2 ^ 32

/-- C usual-arithmetic-conversions wrap of a signed `int` to `unsigned int`,
as applied to `prob_frac` in `get_prandom_u32() < prob_frac`. -/
def toUInt32 (i : Int) : Nat := (i % 2 ^ 32).toNat

/-- Result of one hook invocation: the returned verdict, the map state after
the call, and how many times `get_prandom_u32` was called. -/
structure HookResult where
  verdict : Verdict
  mapOut : MapState
  draws : Nat
deriving DecidableEq, Repr

namespace BpfC

/-- Hook `scream_bpf` from src/bpf/bpf.c:
`val = map_lookup_elem(&map_keymash, &key); if (val && get_prandom_u32() < *val) return TC_ACT_SHOT; return TC_ACT_OK;`
— both operands of `<` are `uint32_t`; the `&&` short-circuits, so the random
draw happens only when the lookup hits. -/
def scream_bpf (skb : SkBuff) (st : MapState) (draw : Nat) : HookResult :=
  match map_lookup_elem st 0 with
  | some v =>
    if draw < v then ⟨Verdict.TC_ACT_SHOT, st, 1⟩ else ⟨Verdict.TC_ACT_OK, st, 1⟩
  | none => ⟨Verdict.TC_ACT_OK, st, 0⟩

end BpfC

namespace BpfC2

/-- Hook `scream_bpf` from src/bpf/bpf2.c:
`int prob_frac = 0; if (val) prob_frac = *val; if (get_prandom_u32() < prob_frac) ...`
— the `uint32_t` cell is assigned into a signed `int`, then the comparison
converts it back to `unsigned int`. -/
def scream_bpf (skb : SkBuff) (st : MapState) (draw : Nat) : HookResult :=
  let val := map_lookup_elem st 0
  let prob_frac : Int :=
    match val with
    | some v => toInt32 v
    | none => 0
  if draw < toUInt32 prob_frac then ⟨Verdict.TC_ACT_SHOT, st, 1⟩
  else ⟨Verdict.TC_ACT_OK, st, 1⟩

end BpfC2

namespace ScreamdBpf

/-- Hook `scream_bpf` from src/screamd/bpf/bpf.c:
`int prob_frac = UINT32_MAX / 10; if (val) prob_frac = *val; if (get_prandom_u32() < prob_frac) ...`
— `val` is `int *`, so `*val` reads the 32-bit cell as a signed `int`; the
fallback `UINT32_MAX / 10 = 429496729` fits `int` unchanged. -/
def scream_bpf (skb : SkBuff) (st : MapState) (draw : Nat) : HookResult :=
  let val := map_lookup_elem st 0
  let prob_frac : Int :=
    match val with
    | some v => toInt32 v
    | none => ((UINT32_MAX / 10 : Nat) : Int)
  if draw < toUInt32 prob_frac then ⟨Verdict.TC_ACT_SHOT, st, 1⟩
  else ⟨Verdict.TC_ACT_OK, st, 1⟩

end ScreamdBpf

namespace Screamd

/-- Hook `emain` from src/screamd/bpf.c (egress hook):
`if (get_prandom_u32() < UINT32_MAX / 10) return TC_ACT_SHOT; return TC_ACT_OK;`
— the pinned map `map_sh` is declared in the file but never consulted. -/
def emain (skb : SkBuff) (st : MapState) (draw : Nat) : HookResult :=
  if draw < UINT32_MAX / 10 then ⟨Verdict.TC_ACT_SHOT, st, 1⟩
  else ⟨Verdict.TC_ACT_OK, st, 1⟩

/-- Hook `imain` from src/screamd/bpf.c (ingress hook): identical body to
`emain`, also ignoring the map. -/
def imain (skb : SkBuff) (st : MapState) (draw : Nat) : HookResult :=
  if draw < UINT32_MAX / 10 then ⟨Verdict.TC_ACT_SHOT, st, 1⟩
  else ⟨Verdict.TC_ACT_OK, st, 1⟩

end Screamd

/-- The decision function: the comparison at src/bpf/bpf.c:38
(`get_prandom_u32() < *val`), abstracted over the threshold as in spec §4.2:
drop when the draw is strictly below the threshold. -/
def decideVerdict (t draw : Nat) : Verdict :=
  if draw < t then Verdict.TC_ACT_SHOT else Verdict.TC_ACT_OK

/-- The effective threshold an entry point compares against: the stored word
when the register is set, the entry point's fallback constant otherwise. -/
def thresholdOrDefault (st : MapState) (fallback : Nat) : Nat :=
  match st with
  | some v => v
  | none => fallback

/-- Converting a 32-bit word to a signed `int` and back through the usual
arithmetic conversions is the identity. -/
theorem toUInt32_toInt32 (v : Nat) (h : v < 2 ^ 32) : toUInt32 (toInt32 v) = v := by
  unfold toUInt32 toInt32
  rw [Nat.mod_eq_of_lt h]
  by_cases hv : v < 2 ^ 31
  · rw [if_pos hv]
    omega
  · rw [if_neg hv]
    omega

/-- Lemma: `decideVerdict` drops exactly below the threshold. -/
theorem decideVerdict_eq_shot (t d : Nat) :
    decideVerdict t d = Verdict.TC_ACT_SHOT ↔ d < t := by
  unfold decideVerdict
  split
  · simp [*]
  · simp [*]

/-- Looking up key 0 yields the current slot. -/
theorem map_lookup_elem_zero (st : MapState) : map_lookup_elem st 0 = st := rfl

/-- The bpf.c classifier's verdict is the decision function applied to the
stored threshold with fallback 0. -/
theorem bpfC_verdict (skb : SkBuff) (st : MapState) (draw : Nat) :
    (BpfC.scream_bpf skb st draw).verdict = decideVerdict (thresholdOrDefault st 0) draw := by
  cases st with
  | none =>
    simp [BpfC.scream_bpf, map_lookup_elem_zero, thresholdOrDefault, decideVerdict]
  | some v =>
    simp only [BpfC.scream_bpf, map_lookup_elem_zero, thresholdOrDefault, decideVerdict]
    split <;> rfl

/-- The bpf2.c classifier's verdict is the decision function applied to the
stored threshold with fallback 0, the signed round-trip notwithstanding. -/
theorem bpfC2_verdict (skb : SkBuff) (st : MapState) (draw : Nat)
    (hst : st.getD 0 < 2 ^ 32) :
    (BpfC2.scream_bpf skb st draw).verdict = decideVerdict (thresholdOrDefault st 0) draw := by
  cases st with
  | none =>
    simp only [BpfC2.scream_bpf, map_lookup_elem_zero, thresholdOrDefault,
      decideVerdict, toUInt32]
    norm_num
  | some v =>
    simp only [Option.getD_some] at hst
    simp only [BpfC2.scream_bpf, map_lookup_elem_zero, thresholdOrDefault,
      decideVerdict, toUInt32_toInt32 v hst]
    split <;> rfl

/-- The screamd classifier's verdict is the decision function applied to the
stored threshold with fallback `UINT32_MAX / 10`. -/
theorem screamdBpf_verdict (skb : SkBuff) (st : MapState) (draw : Nat)
    (hst : st.getD 0 < 2 ^ 32) :
    (ScreamdBpf.scream_bpf skb st draw).verdict
      = decideVerdict (thresholdOrDefault st (UINT32_MAX / 10)) draw := by
  cases st with
  | none =>
    simp only [ScreamdBpf.scream_bpf, map_lookup_elem_zero, thresholdOrDefault,
      decideVerdict, toUInt32]
    norm_num [UINT32_MAX]
    split <;> rfl
  | some v =>
    simp only [Option.getD_some] at hst
    simp only [ScreamdBpf.scream_bpf, map_lookup_elem_zero, thresholdOrDefault,
      decideVerdict, toUInt32_toInt32 v hst]
    split <;> rfl

/-- C1: for every store state (with the stored word a 32-bit value) and every
draw, each classifier hook — `scream_bpf` of bpf.c, bpf2.c and
screamd/bpf/bpf.c — returns TC_ACT_SHOT (DROP) exactly when the draw is
strictly below the effective threshold under unsigned 32-bit comparison (the
stored word when the register is set, else the hook's fallback constant: 0,
0, and UINT32_MAX / 10 respectively), and TC_ACT_OK (PASS) otherwise. -/
theorem c1_classifier_verdicts (skb : SkBuff) (st : MapState) (draw : Nat)
    (hst : st.getD 0 < 2 ^ 32) :
    (BpfC.scream_bpf skb st draw).verdict
        = (if draw < thresholdOrDefault st 0 then Verdict.TC_ACT_SHOT else Verdict.TC_ACT_OK) ∧
    (BpfC2.scream_bpf skb st draw).verdict
        = (if draw < thresholdOrDefault st 0 then Verdict.TC_ACT_SHOT else Verdict.TC_ACT_OK) ∧
    (ScreamdBpf.scream_bpf skb st draw).verdict
        = (if draw < thresholdOrDefault st (UINT32_MAX / 10) then Verdict.TC_ACT_SHOT
           else Verdict.TC_ACT_OK) := by
  refine ⟨?_, ?_, ?_⟩
  · rw [bpfC_verdict skb st draw]; rfl
  · rw [bpfC2_verdict skb st draw hst]; rfl
  · rw [screamdBpf_verdict skb st draw hst]; rfl

/-- C1 witness: at the concrete register value 4000000000 (above 2 ^ 31) and
draw 100, each classifier drops. -/
theorem c1_classifier_verdicts_witness :
    ((some 4000000000 : MapState).getD 0 < 2 ^ 32) ∧
    ((BpfC.scream_bpf ⟨[]⟩ (some 4000000000) 100).verdict
        = (if 100 < thresholdOrDefault (some 4000000000) 0 then Verdict.TC_ACT_SHOT
           else Verdict.TC_ACT_OK) ∧
     (BpfC2.scream_bpf ⟨[]⟩ (some 4000000000) 100).verdict
        = (if 100 < thresholdOrDefault (some 4000000000) 0 then Verdict.TC_ACT_SHOT
           else Verdict.TC_ACT_OK) ∧
     (ScreamdBpf.scream_bpf ⟨[]⟩ (some 4000000000) 100).verdict
        = (if 100 < thresholdOrDefault (some 4000000000) (UINT32_MAX / 10) then Verdict.TC_ACT_SHOT
           else Verdict.TC_ACT_OK)) :=
  ⟨by decide, c1_classifier_verdicts ⟨[]⟩ (some 4000000000) 100 (by decide)⟩

/-- C2 counterexample: with the register set to 0 (so any store-reading hook
must pass every packet) and draw 0, the egress hook `emain` and the ingress
hook `imain` of src/screamd/bpf.c both drop, while the decision function on
the stored threshold — and the store-reading classifier of bpf.c — pass: the
src/screamd/bpf.c hooks do not read the Shared Probability Store. -/
theorem c2_hooks_read_store_counterexample :
    (Screamd.emain ⟨[]⟩ (some 0) 0).verdict = Verdict.TC_ACT_SHOT ∧
    (Screamd.imain ⟨[]⟩ (some 0) 0).verdict = Verdict.TC_ACT_SHOT ∧
    decideVerdict (thresholdOrDefault (some 0) (UINT32_MAX / 10)) 0 = Verdict.TC_ACT_OK ∧
    (BpfC.scream_bpf ⟨[]⟩ (some 0) 0).verdict = Verdict.TC_ACT_OK := by
  decide

/-- C2 amended: the three classifier hooks read the store on every invocation
— their verdict is the decision function at the current stored threshold (or
their fallback when unset) — but the egress and ingress hooks of
src/screamd/bpf.c ignore the store: their verdict is the decision function at
the hard-coded threshold UINT32_MAX / 10 for every store state. -/
theorem c2_hooks_read_store_amended (skb : SkBuff) (st : MapState) (draw : Nat)
    (hst : st.getD 0 < 2 ^ 32) :
    (BpfC.scream_bpf skb st draw).verdict = decideVerdict (thresholdOrDefault st 0) draw ∧
    (BpfC2.scream_bpf skb st draw).verdict = decideVerdict (thresholdOrDefault st 0) draw ∧
    (ScreamdBpf.scream_bpf skb st draw).verdict
      = decideVerdict (thresholdOrDefault st (UINT32_MAX / 10)) draw ∧
    (Screamd.emain skb st draw).verdict = decideVerdict (UINT32_MAX / 10) draw ∧
    (Screamd.imain skb st draw).verdict = decideVerdict (UINT32_MAX / 10) draw := by
  refine ⟨bpfC_verdict skb st draw, bpfC2_verdict skb st draw hst,
    screamdBpf_verdict skb st draw hst, ?_, ?_⟩
  · unfold Screamd.emain decideVerdict
    split <;> rfl
  · unfold Screamd.imain decideVerdict
    split <;> rfl

/-- C2 amended, witness at register value 4000000000 and draw 100. -/
theorem c2_hooks_read_store_amended_witness :
    ((some 4000000000 : MapState).getD 0 < 2 ^ 32) ∧
    ((BpfC.scream_bpf ⟨[]⟩ (some 4000000000) 100).verdict
        = decideVerdict (thresholdOrDefault (some 4000000000) 0) 100 ∧
     (BpfC2.scream_bpf ⟨[]⟩ (some 4000000000) 100).verdict
        = decideVerdict (thresholdOrDefault (some 4000000000) 0) 100 ∧
     (ScreamdBpf.scream_bpf ⟨[]⟩ (some 4000000000) 100).verdict
        = decideVerdict (thresholdOrDefault (some 4000000000) (UINT32_MAX / 10)) 100 ∧
     (Screamd.emain ⟨[]⟩ (some 4000000000) 100).verdict = decideVerdict (UINT32_MAX / 10) 100 ∧
     (Screamd.imain ⟨[]⟩ (some 4000000000) 100).verdict = decideVerdict (UINT32_MAX / 10) 100) :=
  ⟨by decide, c2_hooks_read_store_amended ⟨[]⟩ (some 4000000000) 100 (by decide)⟩

/-- C3: when the store lookup misses, every classifier still returns a normal
verdict, built from its fallback constant: bpf.c and bpf2.c (fallback 0) pass
every draw; screamd/bpf/bpf.c (fallback UINT32_MAX / 10) drops exactly the
draws below UINT32_MAX / 10. -/
theorem c3_miss_is_not_an_error (skb : SkBuff) (draw : Nat) :
    (BpfC.scream_bpf skb none draw).verdict = Verdict.TC_ACT_OK ∧
    (BpfC2.scream_bpf skb none draw).verdict = Verdict.TC_ACT_OK ∧
    (ScreamdBpf.scream_bpf skb none draw).verdict
      = (if draw < UINT32_MAX / 10 then Verdict.TC_ACT_SHOT else Verdict.TC_ACT_OK) := by
  refine ⟨rfl, ?_, ?_⟩
  · simp only [BpfC2.scream_bpf, map_lookup_elem_zero, toUInt32]
    norm_num
  · simp only [ScreamdBpf.scream_bpf, map_lookup_elem_zero, toUInt32]
    norm_num [UINT32_MAX]
    split <;> rfl

/-- C4: the drop condition is a raw unsigned 32-bit comparison for every
stored value, including values at or above 2 ^ 31: passing the word through
the signed `int prob_frac` and back through the usual arithmetic conversions
is the identity, so bpf2.c and screamd/bpf/bpf.c drop exactly when
draw < v. -/
theorem c4_signed_roundtrip_is_unsigned (skb : SkBuff) (v draw : Nat) (hv : v < 2 ^ 32) :
    toUInt32 (toInt32 v) = v ∧
    (BpfC2.scream_bpf skb (some v) draw).verdict
      = (if draw < v then Verdict.TC_ACT_SHOT else Verdict.TC_ACT_OK) ∧
    (ScreamdBpf.scream_bpf skb (some v) draw).verdict
      = (if draw < v then Verdict.TC_ACT_SHOT else Verdict.TC_ACT_OK) := by
  refine ⟨toUInt32_toInt32 v hv, ?_, ?_⟩
  · rw [bpfC2_verdict skb (some v) draw (by simpa using hv)]; rfl
  · rw [screamdBpf_verdict skb (some v) draw (by simpa using hv)]; rfl

/-- C4 witness: at v = 2 ^ 31 + 7 (negative as a signed int) and
draw = 2 ^ 31 + 3 the comparison still behaves as unsigned. -/
theorem c4_signed_roundtrip_is_unsigned_witness :
    (2147483655 < 2 ^ 32) ∧
    (toUInt32 (toInt32 2147483655) = 2147483655 ∧
     (BpfC2.scream_bpf ⟨[]⟩ (some 2147483655) 2147483651).verdict
       = (if 2147483651 < 2147483655 then Verdict.TC_ACT_SHOT else Verdict.TC_ACT_OK) ∧
     (ScreamdBpf.scream_bpf ⟨[]⟩ (some 2147483655) 2147483651).verdict
       = (if 2147483651 < 2147483655 then Verdict.TC_ACT_SHOT else Verdict.TC_ACT_OK)) :=
  ⟨by decide, c4_signed_roundtrip_is_unsigned ⟨[]⟩ 2147483655 2147483651 (by decide)⟩

/-- C5 counterexample: when the lookup misses, the bpf.c classifier's `&&`
short-circuits before `get_prandom_u32()`, so that invocation performs zero
draws, not exactly one. -/
theorem c5_draws_once_counterexample :
    (BpfC.scream_bpf ⟨[]⟩ none 0).draws = 0 ∧ (BpfC.scream_bpf ⟨[]⟩ none 0).draws ≠ 1 := by
  decide

/-- C5 amended: bpf2.c, screamd/bpf/bpf.c, emain and imain call
`get_prandom_u32` exactly once per invocation whether the lookup hits or
misses; the bpf.c classifier draws exactly once on a hit and zero times on a
miss. -/
theorem c5_draw_counts_amended (skb : SkBuff) (st : MapState) (draw : Nat) :
    (BpfC2.scream_bpf skb st draw).draws = 1 ∧
    (ScreamdBpf.scream_bpf skb st draw).draws = 1 ∧
    (Screamd.emain skb st draw).draws = 1 ∧
    (Screamd.imain skb st draw).draws = 1 ∧
    (BpfC.scream_bpf skb st draw).draws = ((match st with | some _ => 1 | none => 0) : Nat) := by
  refine ⟨?_, ?_, ?_, ?_, ?_⟩
  · unfold BpfC2.scream_bpf
    dsimp only
    split <;> rfl
  · unfold ScreamdBpf.scream_bpf
    dsimp only
    split <;> rfl
  · unfold Screamd.emain
    split <;> rfl
  · unfold Screamd.imain
    split <;> rfl
  · cases st with
    | none => rfl
    | some v =>
      unfold BpfC.scream_bpf
      rw [map_lookup_elem_zero]
      dsimp only
      split <;> rfl

/-- C6: for every 32-bit threshold t, exactly t of the 2 ^ 32 possible draw
values make the decision function drop, so a uniform draw drops with
probability exactly t / 2 ^ 32. -/
theorem c6_exact_drop_count (t : Nat) (ht : t < 2 ^ 32) :
    ((Finset.range (2 ^ 32)).filter
      (fun d => decideVerdict t d = Verdict.TC_ACT_SHOT)).card = t := by
  have hx : (Finset.range (2 ^ 32)).filter
      (fun d => decideVerdict t d = Verdict.TC_ACT_SHOT) = Finset.range t := by
    ext d
    simp only [Finset.mem_filter, Finset.mem_range, decideVerdict_eq_shot]
    omega
  rw [hx, Finset.card_range]

/-- C6 witness at threshold 5. -/
theorem c6_exact_drop_count_witness :
    (5 < 2 ^ 32) ∧
    ((Finset.range (2 ^ 32)).filter
      (fun d => decideVerdict 5 d = Verdict.TC_ACT_SHOT)).card = 5 :=
  ⟨by decide, c6_exact_drop_count 5 (by decide)⟩

/-- C7: with threshold 0 the decision function passes every draw; with
threshold 2 ^ 32 - 1 it drops every 32-bit draw except 2 ^ 32 - 1 itself,
which passes. -/
theorem c7_extreme_thresholds (d : Nat) (hd : d < 2 ^ 32) :
    decideVerdict 0 d = Verdict.TC_ACT_OK ∧
    decideVerdict (2 ^ 32 - 1) d
      = (if d = 2 ^ 32 - 1 then Verdict.TC_ACT_OK else Verdict.TC_ACT_SHOT) := by
  constructor
  · unfold decideVerdict
    rw [if_neg (by omega)]
  · unfold decideVerdict
    by_cases h : d = 2 ^ 32 - 1
    · rw [if_pos h, if_neg (by omega)]
    · rw [if_neg h, if_pos (by omega)]

/-- C7 witness at draw 7. -/
theorem c7_extreme_thresholds_witness :
    (7 < 2 ^ 32) ∧
    (decideVerdict 0 7 = Verdict.TC_ACT_OK ∧
     decideVerdict (2 ^ 32 - 1) 7
       = (if 7 = 2 ^ 32 - 1 then Verdict.TC_ACT_OK else Verdict.TC_ACT_SHOT)) :=
  ⟨by decide, c7_extreme_thresholds 7 (by decide)⟩

/-- C8: no hook inspects the packet handle: for the same store state and the
same draw, two invocations with arbitrarily different packet handles return
identical results (verdict, store, draw count) at every entry point. -/
theorem c8_verdict_ignores_packet (skb1 skb2 : SkBuff) (st : MapState) (draw : Nat) :
    BpfC.scream_bpf skb1 st draw = BpfC.scream_bpf skb2 st draw ∧
    BpfC2.scream_bpf skb1 st draw = BpfC2.scream_bpf skb2 st draw ∧
    ScreamdBpf.scream_bpf skb1 st draw = ScreamdBpf.scream_bpf skb2 st draw ∧
    Screamd.emain skb1 st draw = Screamd.emain skb2 st draw ∧
    Screamd.imain skb1 st draw = Screamd.imain skb2 st draw :=
  ⟨rfl, rfl, rfl, rfl, rfl⟩

/-- C9: no hook invocation modifies the Threshold Register: for every
starting store state, packet and draw, the map state after the call equals
the state before it at every entry point. -/
theorem c9_store_unmodified (skb : SkBuff) (st : MapState) (draw : Nat) :
    (BpfC.scream_bpf skb st draw).mapOut = st ∧
    (BpfC2.scream_bpf skb st draw).mapOut = st ∧
    (ScreamdBpf.scream_bpf skb st draw).mapOut = st ∧
    (Screamd.emain skb st draw).mapOut = st ∧
    (Screamd.imain skb st draw).mapOut = st := by
  refine ⟨?_, ?_, ?_, ?_, ?_⟩
  · cases st with
    | none => rfl
    | some v =>
      unfold BpfC.scream_bpf
      rw [map_lookup_elem_zero]
      dsimp only
      split <;> rfl
  · unfold BpfC2.scream_bpf
    dsimp only
    split <;> rfl
  · unfold ScreamdBpf.scream_bpf
    dsimp only
    split <;> rfl
  · unfold Screamd.emain
    split <;> rfl
  · unfold Screamd.imain
    split <;> rfl

/-- C10: the bpf.c classifier (guarding the comparison by lookup success)
and the bpf2.c classifier (substituting fallback 0 and always comparing)
return the same verdict for every store state and every draw. -/
theorem c10_bpfc_bpfc2_verdict_equivalent (skb : SkBuff) (st : MapState) (draw : Nat)
    (hst : st.getD 0 < 2 ^ 32) :
    (BpfC.scream_bpf skb st draw).verdict = (BpfC2.scream_bpf skb st draw).verdict := by
  rw [bpfC_verdict skb st draw, bpfC2_verdict skb st draw hst]

/-- C10 witness at register value 2 ^ 32 - 1 and draw 12. -/
theorem c10_bpfc_bpfc2_verdict_equivalent_witness :
    ((some 4294967295 : MapState).getD 0 < 2 ^ 32) ∧
    (BpfC.scream_bpf ⟨[]⟩ (some 4294967295) 12).verdict
      = (BpfC2.scream_bpf ⟨[]⟩ (some 4294967295) 12).verdict :=
  ⟨by decide, c10_bpfc_bpfc2_verdict_equivalent ⟨[]⟩ (some 4294967295) 12 (by decide)⟩

end Keymashed
